import Mathlib

/-!
Verification of the christmas-tree animation core: the animation state machine,
the per-frame particle motion integrator and convergence aggregator
(src/unnamed/part_002), and the click/timer transition controller
(src/unnamed/part_000, whose triggerExplosion body coincides with
src/js/interaction/events.js).

Modelling conventions:
- JavaScript numbers are modelled as exact rationals (ℚ).  Math.sin and
  Math.cos are opaque library functions of which the code assumes nothing;
  they are carried as unconstrained function parameters in an `Env` record.
- `p.position.distanceTo(q)` computes the Euclidean distance; the source only
  ever compares it with the constant tolerance 0.1.  Since both sides are
  nonnegative, `dist > 0.1` holds iff `dist² > 0.01`, so the embedding keeps
  the squared distance and the squared tolerance 1/100, staying inside ℚ.
- Module-level mutable state is passed explicitly through a `Sys` record.
  Invocations of injected callbacks (onExplosion, onReturn, the camera hook)
  are recorded by instrumentation counters/traces in `Sys` so that theorems
  can speak about "invoked exactly once".
- A JavaScript call of a null callback, or a field access on `undefined`,
  throws a TypeError; fallible operations therefore return `Except JsError`.
-/

namespace XmasTree

/-- A 3D vector with rational coordinates (models THREE.Vector3). -/
structure Vec3 where
  x : ℚ
  y : ℚ
  z : ℚ
  deriving DecidableEq, Repr

/-- Squared Euclidean distance between two vectors.  The source computes
`a.distanceTo(b)` (with a square root) and compares it against 0.1; the
embedding compares the square against 1/100, which is equivalent. -/
def distSq (a b : Vec3) : ℚ :=
  (a.x - b.x) * (a.x - b.x) + (a.y - b.y) * (a.y - b.y) + (a.z - b.z) * (a.z - b.z)

/-- The animation state machine values: src/unnamed/part_002 line 4 and the
string constants "IDLE" / "EXPLODING" / "RETURNING". -/
inductive AnimState where
  | IDLE
  | EXPLODING
  | RETURNING
  deriving DecidableEq, Repr

/-- The configuration fields of CONFIG that the modelled core reads. -/
structure Config where
  idleFloatSpeed : ℚ
  idleFloatAmount : ℚ
  animationSpeed : ℚ
  explodedParallaxEnabled : Bool
  explodedParallaxStrength : ℚ
  reassembleOnClick : Bool
  holdDuration : ℚ
  deriving DecidableEq, Repr

/-- External environment of the integrator: the opaque trigonometric library
functions and the mouse-position callback.  `getMouseSet` models whether
`getMouseFn` has been wired (part_002 line 148 falls back to {x:0,y:0}). -/
structure Env where
  sin : ℚ → ℚ
  cos : ℚ → ℚ
  getMouseSet : Bool
  mouseX : ℚ
  mouseY : ℚ

/-- Per-particle userData, created in createParticleUserData
(src/js/particles/particles.js lines 27-40). -/
structure UserData where
  originalPos : Vec3
  explosionTarget : Vec3
  rotSpeed : Vec3
  individualParallaxShift : Vec3
  baseParallaxSensitivity : ℚ
  deriving DecidableEq, Repr

/-- A well-formed particle: mesh position, rotation and its userData. -/
structure Particle where
  position : Vec3
  rotation : Vec3
  userData : UserData
  deriving DecidableEq, Repr

/-- Translation of animateSingleParticle (src/unnamed/part_002 lines 134-188).
The global `animationState` read by the source is passed as `st`; the mouse
callback is read from `env`. -/
def animateSingleParticle (cfg : Config) (env : Env) (st : AnimState)
    (p : Particle) (index : Nat) (time : ℚ) : Particle :=
  let rot1 : Vec3 := ⟨p.rotation.x + p.userData.rotSpeed.x,
                      p.rotation.y + p.userData.rotSpeed.y,
                      p.rotation.z + p.userData.rotSpeed.z⟩
  match st with
  | AnimState.IDLE =>
      let floatOffset :=
        env.sin (time * cfg.idleFloatSpeed + (index : ℚ) * 0.1) * cfg.idleFloatAmount
      { p with rotation := rot1,
               position := ⟨p.userData.originalPos.x,
                            p.userData.originalPos.y + floatOffset,
                            p.userData.originalPos.z⟩ }
  | AnimState.EXPLODING =>
      let mouseX := if env.getMouseSet then env.mouseX else 0
      let mouseY := if env.getMouseSet then env.mouseY else 0
      let shift0 := p.userData.individualParallaxShift
      let shift1 : Vec3 :=
        if cfg.explodedParallaxEnabled then
          let parallaxX := mouseX * cfg.explodedParallaxStrength * p.userData.baseParallaxSensitivity
          let parallaxY := mouseY * cfg.explodedParallaxStrength * p.userData.baseParallaxSensitivity
          ⟨shift0.x + (parallaxX - shift0.x) * 0.08,
           shift0.y + (parallaxY - shift0.y) * 0.08,
           shift0.z⟩
        else
          ⟨shift0.x * 0.95, shift0.y * 0.95, shift0.z⟩
      let targetX := p.userData.explosionTarget.x + shift1.x
      let targetY := p.userData.explosionTarget.y + shift1.y
      let targetZ := p.userData.explosionTarget.z
      let px1 := p.position.x + (targetX - p.position.x) * cfg.animationSpeed
      let py1 := p.position.y + (targetY - p.position.y) * cfg.animationSpeed
      let pz1 := p.position.z + (targetZ - p.position.z) * cfg.animationSpeed
      let floatOffset :=
        env.sin (time * cfg.idleFloatSpeed * 2 + (index : ℚ) * 0.1) * cfg.idleFloatAmount
      let px2 := px1 + env.sin (time * 0.001 + (index : ℚ)) * 0.01
      let py2 := py1 + floatOffset
      let pz2 := pz1 + env.cos (time * 0.001 + (index : ℚ)) * 0.01
      { p with rotation := ⟨rot1.x + 0.02, rot1.y + 0.01, rot1.z⟩,
               position := ⟨px2, py2, pz2⟩,
               userData := { p.userData with individualParallaxShift := shift1 } }
  | AnimState.RETURNING =>
      let pos1 : Vec3 :=
        ⟨p.position.x + (p.userData.originalPos.x - p.position.x) * cfg.animationSpeed,
         p.position.y + (p.userData.originalPos.y - p.position.y) * cfg.animationSpeed,
         p.position.z + (p.userData.originalPos.z - p.position.z) * cfg.animationSpeed⟩
      let shift0 := p.userData.individualParallaxShift
      let shift1 : Vec3 := ⟨shift0.x * 0.95, shift0.y * 0.95, shift0.z * 0.95⟩
      { p with rotation := rot1,
               position := pos1,
               userData := { p.userData with individualParallaxShift := shift1 } }

/-- Translation of the forEach loops of animateParticles (part_002 lines
108-129): each particle is updated in place, then, when the state is
RETURNING, its distance to its rest position is compared with the tolerance
and the shared `allReturned` accumulator is cleared when it exceeds 0.1.
Arguments: start index, incoming accumulator, list of particles; result:
updated list and final accumulator. -/
def animateList (cfg : Config) (env : Env) (st : AnimState) (time : ℚ) :
    Nat → Bool → List Particle → List Particle × Bool
  | _, acc, [] => ([], acc)
  | i, acc, p :: ps =>
      let p' := animateSingleParticle cfg env st p i time
      let acc' :=
        if st = AnimState.RETURNING ∧ (0.1 : ℚ) * 0.1 < distSq p'.position p'.userData.originalPos
        then false else acc
      let r := animateList cfg env st time (i + 1) acc' ps
      (p' :: r.1, r.2)

/-- Translation of animateParticles (part_002 lines 104-132): runs the loop
over the tree particles, then over the test particles (index restarting at 0),
threading the `allReturned` flag initialised to true.  Result: updated tree
particles, updated test particles, final `allReturned`. -/
def animateParticles (cfg : Config) (env : Env) (st : AnimState)
    (particles testParticles : List Particle) (time : ℚ) :
    List Particle × List Particle × Bool :=
  let r1 := animateList cfg env st time 0 true particles
  let r2 := animateList cfg env st time 0 r1.2 testParticles
  (r1.1, r2.1, r2.2)

/-- The JavaScript error raised by calling a null function or by accessing a
property of `undefined`. -/
inductive JsError where
  | typeError
  deriving DecidableEq, Repr

/-- Combined module-level mutable state of src/unnamed/part_002 and
src/unnamed/part_000, with instrumentation fields.

Fidelity fields: `animationState` (part_002 line 4), `particles` and
`testParticles` (part_002 lines 7-8), `returnTimer` (part_000 line 3; the
payload records the delay the pending setTimeout was scheduled with).
Configuration flags: `updateCameraSet` models whether `updateCameraFn` was
wired (part_002 line 23), `onExplosionSet` / `onReturnSet` whether
`onExplosion` / `onReturn` were wired (part_000 lines 7-8).
Instrumentation: `cameraCalls` is the list of arguments passed to the camera
hook, `setStateTrace` the list of values written through setAnimationState,
`onExplosionCalls` / `onReturnCalls` / `clearTimeoutCalls` count the
corresponding JavaScript calls. -/
structure Sys where
  animationState : AnimState
  particles : List Particle
  testParticles : List Particle
  returnTimer : Option ℚ
  updateCameraSet : Bool
  cameraCalls : List AnimState
  onExplosionSet : Bool
  onReturnSet : Bool
  onExplosionCalls : Nat
  onReturnCalls : Nat
  clearTimeoutCalls : Nat
  setStateTrace : List AnimState
  deriving DecidableEq, Repr

/-- Translation of setAnimationState (part_002 lines 50-55): writes the state
and, only if the camera hook has been wired, invokes it with the new state. -/
def setAnimationState (ns : AnimState) (s : Sys) : Sys :=
  { s with animationState := ns,
           setStateTrace := s.setStateTrace ++ [ns],
           cameraCalls := if s.updateCameraSet then s.cameraCalls ++ [ns] else s.cameraCalls }

/-- Semantics of the unguarded JavaScript call `onExplosion()` (part_000 line
94): raises a TypeError if the callback is still null. -/
def callOnExplosion (s : Sys) : Except JsError Sys :=
  if s.onExplosionSet
  then Except.ok { s with onExplosionCalls := s.onExplosionCalls + 1 }
  else Except.error JsError.typeError

/-- Semantics of the unguarded JavaScript call `onReturn()` (part_000 lines
75 and 97): raises a TypeError if the callback is still null. -/
def callOnReturn (s : Sys) : Except JsError Sys :=
  if s.onReturnSet
  then Except.ok { s with onReturnCalls := s.onReturnCalls + 1 }
  else Except.error JsError.typeError

/-- Translation of clearReturnTimer (part_000 lines 104-109); the same
`if (returnTimer) { clearTimeout(returnTimer); returnTimer = null; }`
statement block also opens both branches of triggerExplosion. -/
def clearReturnTimer (s : Sys) : Sys :=
  if s.returnTimer.isSome
  then { s with returnTimer := none, clearTimeoutCalls := s.clearTimeoutCalls + 1 }
  else s

/-- A user interaction event as seen by triggerExplosion: whether its target
lies inside the dat.GUI region (`target.closest('.dg')`, part_000 line 54)
and whether it is a touch event. -/
structure InputEvent where
  inGuiRegion : Bool
  isTouch : Bool
  deriving DecidableEq, Repr

/-- Translation of triggerExplosion (part_000 lines 51-102; the body is the
same in src/js/interaction/events.js lines 94-139).  `preventDefault` on touch
events has no effect on the modelled state and is omitted. -/
def triggerExplosion (cfg : Config) (evt : InputEvent) (s : Sys) : Except JsError Sys :=
  if evt.inGuiRegion then Except.ok s
  else
    if s.animationState = AnimState.EXPLODING ∧ cfg.reassembleOnClick then
      (callOnReturn (clearReturnTimer s)).map
        (fun s2 => setAnimationState AnimState.RETURNING s2)
    else if s.animationState ≠ AnimState.IDLE ∧ s.animationState ≠ AnimState.RETURNING then
      Except.ok s
    else
      (callOnExplosion (setAnimationState AnimState.EXPLODING (clearReturnTimer s))).map
        (fun s3 => { s3 with returnTimer := some cfg.holdDuration })

/-- Translation of the setTimeout callback scheduled at part_000 lines 96-101:
invokes onReturn, sets the state to RETURNING and clears its own handle.
When no timer is pending the event cannot occur and is modelled as a no-op. -/
def fireReturnTimer (s : Sys) : Except JsError Sys :=
  match s.returnTimer with
  | none => Except.ok s
  | some _ =>
      (callOnReturn s).map (fun s1 =>
        { setAnimationState AnimState.RETURNING s1 with returnTimer := none })

/-- Translation of the per-frame body of animate (part_002 lines 65-102)
restricted to the modelled state: the auxiliary hooks (FPS counter, group
parallax, showcase box, render) are guarded calls into external modules that
read but never write `animationState`, the particle collections or the timer,
so they do not appear in the state transition.  The integration pass runs
first (line 91), then the RETURNING-and-converged test issues the IDLE
transition (lines 94-96). -/
def animateTick (cfg : Config) (env : Env) (time : ℚ) (s : Sys) : Sys :=
  let r := animateParticles cfg env s.animationState s.particles s.testParticles time
  let s2 := { s with particles := r.1, testParticles := r.2.1 }
  if s.animationState = AnimState.RETURNING ∧ r.2.2 = true
  then setAnimationState AnimState.IDLE s2
  else s2

/-- The events that can reach the modelled core: a frame tick, a user trigger,
the pending hold-duration timer firing, and the exported clearReturnTimer. -/
inductive SysEvent where
  | tick (time : ℚ)
  | trigger (evt : InputEvent)
  | timerFire
  | clearTimer
  deriving DecidableEq, Repr

/-- One step of the whole system: dispatches an event to the translated
handler that the repository wires to it. -/
def step (cfg : Config) (env : Env) (s : Sys) : SysEvent → Except JsError Sys
  | SysEvent.tick t => Except.ok (animateTick cfg env t s)
  | SysEvent.trigger evt => triggerExplosion cfg evt s
  | SysEvent.timerFire => fireReturnTimer s
  | SysEvent.clearTimer => Except.ok (clearReturnTimer s)

/-- Spec-side predicate (Convergence Aggregator, spec §4.4): a particle counts
as returned when its Euclidean distance to its rest position is at most 0.1,
i.e. its squared distance is at most 0.01. -/
def convergedB (p : Particle) : Bool :=
  decide (distSq p.position p.userData.originalPos ≤ (0.1 : ℚ) * 0.1)

/-- Spec-side integration pass: updates every particle of a list through the
Motion Integrator, indices starting at `i`. -/
def integrateFrom (cfg : Config) (env : Env) (st : AnimState) (time : ℚ) :
    Nat → List Particle → List Particle
  | _, [] => []
  | i, p :: ps =>
      animateSingleParticle cfg env st p i time :: integrateFrom cfg env st time (i + 1) ps

/-- Spec-described two-phase frame (spec §5 ordering guarantee): first the
Motion Integrator runs for every particle of both collections, then the
Convergence Aggregator computes the full boolean AND of the per-particle
tolerance checks over all updated particles (only consulted in RETURNING). -/
def animateParticlesTwoPhase (cfg : Config) (env : Env) (st : AnimState)
    (particles testParticles : List Particle) (time : ℚ) :
    List Particle × List Particle × Bool :=
  let ps' := integrateFrom cfg env st time 0 particles
  let ts' := integrateFrom cfg env st time 0 testParticles
  (ps', ts', if st = AnimState.RETURNING then (ps' ++ ts').all convergedB else true)

/-- A particle record as the JavaScript runtime sees it: `userData` (or its
fields) may be missing, in which case the very first statement of
animateSingleParticle (part_002 line 136, `p.userData.rotSpeed.x`) throws a
TypeError. -/
structure ParticleJS where
  position : Vec3
  rotation : Vec3
  userData : Option UserData
  deriving DecidableEq, Repr

/-- JavaScript semantics of the forEach loop of animateParticles on possibly
malformed records.  There is no try/catch anywhere in the loop (part_002
lines 104-132), so a TypeError thrown while updating one particle propagates
out of the forEach: particles already visited keep their in-place updates,
the faulting particle and every later particle are left untouched.  Result:
array contents after the loop, the `allReturned` accumulator, and whether an
exception escaped. -/
def animateListJS (cfg : Config) (env : Env) (st : AnimState) (time : ℚ) :
    Nat → Bool → List ParticleJS → List ParticleJS × Bool × Bool
  | _, acc, [] => ([], acc, false)
  | i, acc, p :: ps =>
      match p.userData with
      | none => (p :: ps, acc, true)
      | some ud =>
          let q := animateSingleParticle cfg env st ⟨p.position, p.rotation, ud⟩ i time
          let p' : ParticleJS := ⟨q.position, q.rotation, some q.userData⟩
          let acc' :=
            if st = AnimState.RETURNING ∧ (0.1 : ℚ) * 0.1 < distSq q.position q.userData.originalPos
            then false else acc
          let r := animateListJS cfg env st time (i + 1) acc' ps
          (p' :: r.1, r.2.1, r.2.2)

/-- JavaScript semantics of animateParticles on possibly malformed records:
an exception in the first forEach aborts the whole call before the test
particles are visited.  Result: tree particles, test particles, allReturned,
and whether an exception escaped. -/
def animateParticlesJS (cfg : Config) (env : Env) (st : AnimState)
    (particles testParticles : List ParticleJS) (time : ℚ) :
    List ParticleJS × List ParticleJS × Bool × Bool :=
  let r1 := animateListJS cfg env st time 0 true particles
  if r1.2.2 then (r1.1, testParticles, r1.2.1, true)
  else
    let r2 := animateListJS cfg env st time 0 r1.2.1 testParticles
    (r1.1, r2.1, r2.2.1, r2.2.2)

lemma animateList_fst (cfg : Config) (env : Env) (st : AnimState) (t : ℚ)
    (ps : List Particle) : ∀ (i : Nat) (acc : Bool),
    (animateList cfg env st t i acc ps).1 = integrateFrom cfg env st t i ps := by
  induction ps with
  | nil => intro i acc; rfl
  | cons p ps ih => intro i acc; simp [animateList, integrateFrom, ih]

lemma animateList_snd (cfg : Config) (env : Env) (st : AnimState) (t : ℚ)
    (ps : List Particle) : ∀ (i : Nat) (acc : Bool),
    (animateList cfg env st t i acc ps).2 =
      (acc && (if st = AnimState.RETURNING
               then (integrateFrom cfg env st t i ps).all convergedB
               else true)) := by
  induction ps with
  | nil => intro i acc; simp [animateList, integrateFrom]
  | cons p ps ih =>
      intro i acc
      simp only [animateList, integrateFrom, List.all_cons, ih]
      by_cases hst : st = AnimState.RETURNING
      · subst hst
        by_cases hd : (0.1 : ℚ) * 0.1 <
            distSq (animateSingleParticle cfg env AnimState.RETURNING p i t).position
              (animateSingleParticle cfg env AnimState.RETURNING p i t).userData.originalPos
        · simp [hd, convergedB, not_le.mpr hd]
        · simp [hd, convergedB, not_lt.mp hd, Bool.and_assoc]
      · simp [hst]

lemma animateParticles_fst (cfg : Config) (env : Env) (st : AnimState)
    (ps ts : List Particle) (t : ℚ) :
    (animateParticles cfg env st ps ts t).1 = integrateFrom cfg env st t 0 ps := by
  simp [animateParticles, animateList_fst]

lemma animateParticles_snd_fst (cfg : Config) (env : Env) (st : AnimState)
    (ps ts : List Particle) (t : ℚ) :
    (animateParticles cfg env st ps ts t).2.1 = integrateFrom cfg env st t 0 ts := by
  simp [animateParticles, animateList_fst]

lemma animateParticles_flag (cfg : Config) (env : Env) (st : AnimState)
    (ps ts : List Particle) (t : ℚ) :
    (animateParticles cfg env st ps ts t).2.2 =
      (if st = AnimState.RETURNING
       then (integrateFrom cfg env st t 0 ps ++ integrateFrom cfg env st t 0 ts).all convergedB
       else true) := by
  unfold animateParticles
  simp only [animateList_snd, List.all_append]
  by_cases hst : st = AnimState.RETURNING <;> simp [hst, Bool.and_assoc]

/-- C7: within one frame tick the Motion Integrator runs for all particles
before the Convergence Aggregator inspects them and before the render call:
the source's interleaved per-particle update-then-check loop computes the same
pair of updated collections and the same aggregate convergence boolean as the
two-phase version that first integrates every particle of both collections and
then takes the full AND of the per-particle distance checks. -/
theorem C7_interleaved_equals_twoPhase (cfg : Config) (env : Env) (st : AnimState)
    (ps ts : List Particle) (t : ℚ) :
    animateParticles cfg env st ps ts t = animateParticlesTwoPhase cfg env st ps ts t := by
  unfold animateParticles animateParticlesTwoPhase
  simp only [animateList_fst, animateList_snd, List.all_append]
  by_cases hst : st = AnimState.RETURNING <;> simp [hst, Bool.and_assoc]

/-- C5: in the IDLE state the integrator sets the particle's vertical position
to restPosition.y plus idleFloatAmount * sin(time * idleFloatSpeed +
index * 0.1), and sets the horizontal and depth coordinates exactly equal to
the rest position. -/
theorem C5_idle_integrator (cfg : Config) (env : Env) (p : Particle) (i : Nat) (t : ℚ) :
    (animateSingleParticle cfg env AnimState.IDLE p i t).position.y
        = p.userData.originalPos.y
          + cfg.idleFloatAmount * env.sin (t * cfg.idleFloatSpeed + (i : ℚ) * 0.1)
    ∧ (animateSingleParticle cfg env AnimState.IDLE p i t).position.x
        = p.userData.originalPos.x
    ∧ (animateSingleParticle cfg env AnimState.IDLE p i t).position.z
        = p.userData.originalPos.z := by
  refine ⟨?_, rfl, rfl⟩
  show p.userData.originalPos.y
      + env.sin (t * cfg.idleFloatSpeed + (i : ℚ) * 0.1) * cfg.idleFloatAmount = _
  ring

/-- C6: in the EXPLODING state, the per-particle parallax shift is
exponentially smoothed with factor exactly 0.08 toward mouse position times
strength times the particle's own sensitivity when parallax is enabled, and
multiplied by 0.95 otherwise; the lerp target is explosionTarget plus the
(new) parallax shift on x and y while the z target is explosionTarget.z
unmodified; and each axis is advanced by current += (target - current) *
animationSpeed (with the frame's additive sinusoidal jitter superimposed on
the interpolated value). -/
theorem C6_exploding_parallax_and_lerp (cfg : Config) (env : Env) (p : Particle)
    (i : Nat) (t : ℚ) (hm : env.getMouseSet = true) :
    (animateSingleParticle cfg env AnimState.EXPLODING p i t).userData.individualParallaxShift.x
        = (if cfg.explodedParallaxEnabled = true
           then p.userData.individualParallaxShift.x
                + (env.mouseX * cfg.explodedParallaxStrength * p.userData.baseParallaxSensitivity
                   - p.userData.individualParallaxShift.x) * 0.08
           else p.userData.individualParallaxShift.x * 0.95)
    ∧ (animateSingleParticle cfg env AnimState.EXPLODING p i t).userData.individualParallaxShift.y
        = (if cfg.explodedParallaxEnabled = true
           then p.userData.individualParallaxShift.y
                + (env.mouseY * cfg.explodedParallaxStrength * p.userData.baseParallaxSensitivity
                   - p.userData.individualParallaxShift.y) * 0.08
           else p.userData.individualParallaxShift.y * 0.95)
    ∧ (animateSingleParticle cfg env AnimState.EXPLODING p i t).position.x
        = (p.position.x
           + ((p.userData.explosionTarget.x
               + (animateSingleParticle cfg env AnimState.EXPLODING p i t).userData.individualParallaxShift.x)
              - p.position.x) * cfg.animationSpeed)
          + env.sin (t * 0.001 + (i : ℚ)) * 0.01
    ∧ (animateSingleParticle cfg env AnimState.EXPLODING p i t).position.y
        = (p.position.y
           + ((p.userData.explosionTarget.y
               + (animateSingleParticle cfg env AnimState.EXPLODING p i t).userData.individualParallaxShift.y)
              - p.position.y) * cfg.animationSpeed)
          + env.sin (t * cfg.idleFloatSpeed * 2 + (i : ℚ) * 0.1) * cfg.idleFloatAmount
    ∧ (animateSingleParticle cfg env AnimState.EXPLODING p i t).position.z
        = (p.position.z
           + (p.userData.explosionTarget.z - p.position.z) * cfg.animationSpeed)
          + env.cos (t * 0.001 + (i : ℚ)) * 0.01 := by
  by_cases hpe : cfg.explodedParallaxEnabled = true <;>
    simp [animateSingleParticle, hm, hpe]

/-- C10: if both particle collections are empty the per-tick convergence
aggregate is vacuously true, so a single frame tick executed in RETURNING
transitions the state to IDLE immediately, with zero particles ever moved. -/
theorem C10_empty_collections_tick_idle (cfg : Config) (env : Env) (s : Sys) (t : ℚ)
    (hs : s.animationState = AnimState.RETURNING)
    (hp : s.particles = []) (ht : s.testParticles = []) :
    (animateTick cfg env t s).animationState = AnimState.IDLE
    ∧ (animateTick cfg env t s).particles = []
    ∧ (animateTick cfg env t s).testParticles = [] := by
  simp [animateTick, animateParticles, animateList, hs, hp, ht, setAnimationState]

/-- C2: a trigger arriving in IDLE or RETURNING (outside the GUI region, with
the callbacks wired) cancels any outstanding return timer, sets the state to
EXPLODING exactly once, invokes the explosion callback exactly once, and
schedules exactly one timer for holdDuration milliseconds whose callback
invokes the return callback, sets the state to RETURNING and clears its own
handle. -/
theorem C2_trigger_explodes_and_schedules (cfg : Config) (evt : InputEvent) (s : Sys)
    (hg : evt.inGuiRegion = false)
    (hs : s.animationState = AnimState.IDLE ∨ s.animationState = AnimState.RETURNING)
    (he : s.onExplosionSet = true) (hr : s.onReturnSet = true) :
    ∃ s', triggerExplosion cfg evt s = Except.ok s'
      ∧ s'.animationState = AnimState.EXPLODING
      ∧ s'.setStateTrace = s.setStateTrace ++ [AnimState.EXPLODING]
      ∧ s'.onExplosionCalls = s.onExplosionCalls + 1
      ∧ s'.onReturnCalls = s.onReturnCalls
      ∧ s'.returnTimer = some cfg.holdDuration
      ∧ s'.clearTimeoutCalls = s.clearTimeoutCalls + (if s.returnTimer.isSome then 1 else 0)
      ∧ ∃ s'', fireReturnTimer s' = Except.ok s''
          ∧ s''.onReturnCalls = s'.onReturnCalls + 1
          ∧ s''.animationState = AnimState.RETURNING
          ∧ s''.setStateTrace = s'.setStateTrace ++ [AnimState.RETURNING]
          ∧ s''.returnTimer = none := by
  rcases hs with h | h <;> rcases hrt : s.returnTimer with _ | d <;>
    simp [triggerExplosion, hg, h, hrt, clearReturnTimer, setAnimationState,
          callOnExplosion, callOnReturn, he, hr, Except.map, fireReturnTimer]

/-- C3: a trigger arriving in EXPLODING with reassembleOnClick enabled
(outside the GUI region, return callback wired) cancels any outstanding
return timer, invokes the return callback once, sets the state to RETURNING,
and returns without scheduling any new timer. -/
theorem C3_reassemble_returns_immediately (cfg : Config) (evt : InputEvent) (s : Sys)
    (hg : evt.inGuiRegion = false)
    (hs : s.animationState = AnimState.EXPLODING)
    (hre : cfg.reassembleOnClick = true)
    (hr : s.onReturnSet = true) :
    ∃ s', triggerExplosion cfg evt s = Except.ok s'
      ∧ s'.animationState = AnimState.RETURNING
      ∧ s'.setStateTrace = s.setStateTrace ++ [AnimState.RETURNING]
      ∧ s'.onReturnCalls = s.onReturnCalls + 1
      ∧ s'.onExplosionCalls = s.onExplosionCalls
      ∧ s'.returnTimer = none
      ∧ s'.clearTimeoutCalls = s.clearTimeoutCalls + (if s.returnTimer.isSome then 1 else 0) := by
  rcases hrt : s.returnTimer with _ | d <;>
    simp [triggerExplosion, hg, hs, hre, hrt, clearReturnTimer, setAnimationState,
          callOnReturn, hr, Except.map]

/-- C4: a trigger arriving in EXPLODING with reassembleOnClick disabled is a
no-op: the returned state is exactly the incoming state, so the animation
state, the pending timer handle and every callback counter are unchanged. -/
theorem C4_exploding_without_reassemble_noop (cfg : Config) (evt : InputEvent) (s : Sys)
    (hs : s.animationState = AnimState.EXPLODING)
    (hre : cfg.reassembleOnClick = false) :
    triggerExplosion cfg evt s = Except.ok s := by
  by_cases hg : evt.inGuiRegion = true
  · simp [triggerExplosion, hg]
  · simp [triggerExplosion, hg, hs, hre]

lemma clearReturnTimer_anim (s : Sys) :
    (clearReturnTimer s).animationState = s.animationState := by
  unfold clearReturnTimer; split <;> rfl

lemma callOnExplosion_anim (s s2 : Sys) (h : callOnExplosion s = Except.ok s2) :
    s2.animationState = s.animationState := by
  unfold callOnExplosion at h
  split at h
  · cases h; rfl
  · cases h

lemma triggerExplosion_anim (cfg : Config) (evt : InputEvent) (s s' : Sys)
    (h : triggerExplosion cfg evt s = Except.ok s') :
    s'.animationState = s.animationState ∨ s'.animationState = AnimState.RETURNING
      ∨ s'.animationState = AnimState.EXPLODING := by
  unfold triggerExplosion at h
  split at h
  · cases h; exact Or.inl rfl
  · split at h
    · cases hc : callOnReturn (clearReturnTimer s) with
      | error e => rw [hc] at h; simp [Except.map] at h
      | ok s2 =>
          rw [hc] at h
          simp only [Except.map] at h
          cases h
          exact Or.inr (Or.inl rfl)
    · split at h
      · cases h; exact Or.inl rfl
      · cases hc : callOnExplosion (setAnimationState AnimState.EXPLODING (clearReturnTimer s)) with
        | error e => rw [hc] at h; simp [Except.map] at h
        | ok s3 =>
            rw [hc] at h
            simp only [Except.map] at h
            cases h
            have h3 := callOnExplosion_anim _ _ hc
            exact Or.inr (Or.inr (by simpa [setAnimationState] using h3))

lemma fireReturnTimer_anim (s s' : Sys) (h : fireReturnTimer s = Except.ok s') :
    s'.animationState = s.animationState ∨ s'.animationState = AnimState.RETURNING := by
  unfold fireReturnTimer at h
  split at h
  · cases h; exact Or.inl rfl
  · cases hc : callOnReturn s with
    | error e => rw [hc] at h; simp [Except.map] at h
    | ok s2 =>
        rw [hc] at h
        simp only [Except.map] at h
        cases h
        exact Or.inr rfl

/-- C1: the RETURNING to IDLE transition happens exactly when, after a frame
tick's integration pass, every particle of both collections (tree and test)
is within Euclidean distance 0.1 of its rest position (the full boolean AND),
and no other event of the system (user trigger, hold timer firing, timer
clearing) ever produces the IDLE state from a non-IDLE state. -/
theorem C1_idle_only_by_convergence (cfg : Config) (env : Env) (s : Sys)
    (e : SysEvent) (t : ℚ) (s' : Sys)
    (h : step cfg env s e = Except.ok s') :
    (s'.animationState = AnimState.IDLE →
        s.animationState = AnimState.IDLE ∨
          (s.animationState = AnimState.RETURNING ∧ ∃ u, e = SysEvent.tick u ∧
            ((integrateFrom cfg env AnimState.RETURNING u 0 s.particles
              ++ integrateFrom cfg env AnimState.RETURNING u 0 s.testParticles).all convergedB)
              = true))
    ∧ (e = SysEvent.tick t → s.animationState = AnimState.RETURNING →
        (s'.animationState = AnimState.IDLE ↔
          ((integrateFrom cfg env AnimState.RETURNING t 0 s.particles
            ++ integrateFrom cfg env AnimState.RETURNING t 0 s.testParticles).all convergedB)
            = true)) := by
  cases e with
  | tick u =>
      simp only [step] at h
      injection h with h2
      subst h2
      by_cases hR : s.animationState = AnimState.RETURNING
      · by_cases hagg : ((integrateFrom cfg env AnimState.RETURNING u 0 s.particles
            ++ integrateFrom cfg env AnimState.RETURNING u 0 s.testParticles).all convergedB) = true
        · have htick : (animateTick cfg env u s).animationState = AnimState.IDLE := by
            simp [animateTick, hR, animateParticles_flag, hagg, setAnimationState]
          refine ⟨fun _ => Or.inr ⟨hR, u, rfl, hagg⟩, fun he' _ => ?_⟩
          injection he' with htu
          subst htu
          simp [htick, hagg]
        · have htick : (animateTick cfg env u s).animationState = AnimState.RETURNING := by
            simp [animateTick, hR, animateParticles_flag, hagg]
          refine ⟨fun hIdle => ?_, fun he' _ => ?_⟩
          · rw [htick] at hIdle; exact absurd hIdle (by simp)
          · injection he' with htu
            subst htu
            rw [htick]
            simp [hagg]
      · have htick : (animateTick cfg env u s).animationState = s.animationState := by
          simp [animateTick, hR]
        exact ⟨fun hIdle => Or.inl (by rw [← htick]; exact hIdle),
               fun _ hR' => absurd hR' hR⟩
  | trigger evt =>
      simp only [step] at h
      refine ⟨fun hIdle => ?_, fun he' => nomatch he'⟩
      rcases triggerExplosion_anim cfg evt s s' h with ha | ha | ha
      · exact Or.inl (by rw [← ha]; exact hIdle)
      · rw [ha] at hIdle; exact absurd hIdle (by simp)
      · rw [ha] at hIdle; exact absurd hIdle (by simp)
  | timerFire =>
      simp only [step] at h
      refine ⟨fun hIdle => ?_, fun he' => nomatch he'⟩
      rcases fireReturnTimer_anim s s' h with ha | ha
      · exact Or.inl (by rw [← ha]; exact hIdle)
      · rw [ha] at hIdle; exact absurd hIdle (by simp)
  | clearTimer =>
      simp only [step] at h
      injection h with h2
      subst h2
      refine ⟨fun hIdle => ?_, fun he' => nomatch he'⟩
      exact Or.inl (by rw [← clearReturnTimer_anim s]; exact hIdle)

/-- C8 amended behaviour: the loop has no try/catch, so a malformed record
aborts the iteration.  For any collection consisting of a well-formed prefix,
one malformed record and an arbitrary suffix, the loop updates exactly the
prefix, leaves the malformed record and the whole suffix untouched, and the
exception escapes. -/
theorem C8_fault_aborts_rest (cfg : Config) (env : Env) (st : AnimState) (t : ℚ)
    (as : List ParticleJS) (bad : ParticleJS) (bs : List ParticleJS)
    (i : Nat) (acc : Bool)
    (hwf : ∀ p ∈ as, p.userData.isSome = true)
    (hbad : bad.userData = none) :
    animateListJS cfg env st t i acc (as ++ bad :: bs) =
      ((animateListJS cfg env st t i acc as).1 ++ bad :: bs,
       (animateListJS cfg env st t i acc as).2.1, true) := by
  have main : ∀ (l : List ParticleJS), (∀ p ∈ l, p.userData.isSome = true) →
      ∀ (j : Nat) (a : Bool),
      animateListJS cfg env st t j a (l ++ bad :: bs) =
        ((animateListJS cfg env st t j a l).1 ++ bad :: bs,
         (animateListJS cfg env st t j a l).2.1, true) := by
    intro l
    induction l with
    | nil => intro _ j a; simp [animateListJS, hbad]
    | cons p l ih =>
        intro hl j a
        have hp : p.userData.isSome = true := hl p (List.mem_cons_self p l)
        rcases hud : p.userData with _ | ud
        · rw [hud] at hp; cases hp
        · have hl' : ∀ q ∈ l, q.userData.isSome = true :=
            fun q hq => hl q (List.mem_cons_of_mem p hq)
          simp [animateListJS, hud, ih hl']
  exact main as hwf i acc

/-- Concrete configuration for the witness and counterexample theorems. -/
def cfgW : Config :=
  { idleFloatSpeed := 1, idleFloatAmount := 2, animationSpeed := 1/2,
    explodedParallaxEnabled := true, explodedParallaxStrength := 3,
    reassembleOnClick := true, holdDuration := 1500 }

/-- Concrete configuration with reassembleOnClick disabled. -/
def cfgWn : Config := { cfgW with reassembleOnClick := false }

/-- Concrete environment: sin and cos stand-ins are the identity function. -/
def envW : Env :=
  { sin := fun q => q, cos := fun q => q, getMouseSet := true, mouseX := 1, mouseY := -1 }

/-- Concrete userData for witness particles. -/
def udW : UserData :=
  { originalPos := ⟨0, 0, 0⟩, explosionTarget := ⟨10, 10, 10⟩,
    rotSpeed := ⟨1/100, 0, 0⟩, individualParallaxShift := ⟨0, 0, 0⟩,
    baseParallaxSensitivity := 1 }

/-- Concrete particle for witness theorems. -/
def pW : Particle := { position := ⟨0, 0, 0⟩, rotation := ⟨0, 0, 0⟩, userData := udW }

/-- Concrete system state: IDLE, no pending timer, all callbacks wired. -/
def sysW : Sys :=
  { animationState := AnimState.IDLE, particles := [], testParticles := [],
    returnTimer := none, updateCameraSet := true, cameraCalls := [],
    onExplosionSet := true, onReturnSet := true, onExplosionCalls := 0,
    onReturnCalls := 0, clearTimeoutCalls := 0, setStateTrace := [] }

/-- Concrete system state in RETURNING with empty particle collections. -/
def sysRet : Sys := { sysW with animationState := AnimState.RETURNING }

/-- Concrete system state in EXPLODING with a pending return timer. -/
def sysExp : Sys :=
  { sysW with animationState := AnimState.EXPLODING, returnTimer := some 1500 }

/-- Concrete system state with no callbacks configured. -/
def sysNoCb : Sys :=
  { sysW with onExplosionSet := false, onReturnSet := false, updateCameraSet := false }

/-- Concrete interaction event outside the GUI region. -/
def evtW : InputEvent := { inGuiRegion := false, isTouch := false }

/-- Concrete well-formed particle record (JS view). -/
def pGoodA : ParticleJS := { position := ⟨0, 0, 0⟩, rotation := ⟨0, 0, 0⟩, userData := some udW }

/-- Concrete malformed particle record: its userData is missing, so the first
field access of the integrator throws. -/
def pBad : ParticleJS := { position := ⟨5, 5, 5⟩, rotation := ⟨0, 0, 0⟩, userData := none }

/-- Concrete well-formed particle record positioned away from rest. -/
def pGoodB : ParticleJS := { position := ⟨1, 2, 3⟩, rotation := ⟨0, 0, 0⟩, userData := some udW }

/-- C8 counterexample: in a collection whose middle record is malformed, the
tick's exception escapes the loop (last component true) and the third
particle comes out exactly unchanged, although the integrator applied to it
would move it; so the frame does not update all other particles. -/
theorem C8_counterexample :
    (animateParticlesJS cfgW envW AnimState.IDLE [pGoodA, pBad, pGoodB] [] 0).2.2.2 = true
    ∧ (animateParticlesJS cfgW envW AnimState.IDLE [pGoodA, pBad, pGoodB] [] 0).1.drop 1
        = [pBad, pGoodB]
    ∧ animateSingleParticle cfgW envW AnimState.IDLE
        ⟨pGoodB.position, pGoodB.rotation, udW⟩ 2 0
        ≠ ⟨pGoodB.position, pGoodB.rotation, udW⟩ := by
  refine ⟨?_, ?_, ?_⟩
  · simp [animateParticlesJS, animateListJS, pGoodA, pBad, pGoodB, udW]
  · simp [animateParticlesJS, animateListJS, pGoodA, pBad, pGoodB, udW]
  · norm_num [animateSingleParticle, pGoodB, udW, cfgW, envW,
      Particle.mk.injEq, Vec3.mk.injEq, UserData.mk.injEq]

/-- C9 counterexample: a trigger arriving in IDLE before the explosion
callback has been configured does not complete without error: the unguarded
`onExplosion()` call at part_000 line 94 raises a TypeError. -/
theorem C9_counterexample :
    triggerExplosion cfgW evtW sysNoCb = Except.error JsError.typeError := by
  simp [triggerExplosion, cfgW, evtW, sysNoCb, sysW, clearReturnTimer,
        setAnimationState, callOnExplosion, Except.map]

/-- C9 amended: the state setter degrades to a no-op on the unconfigured
camera hook (its invocation is guarded), but the trigger operation invokes
the explosion/return callbacks unconditionally: triggering an explosion or a
reassembly before they are configured raises a TypeError instead of
degrading to a no-op. -/
theorem C9_hooks_amended (cfg : Config) (evt : InputEvent) (s : Sys) (ns : AnimState)
    (hcam : s.updateCameraSet = false)
    (hg : evt.inGuiRegion = false) :
    ((setAnimationState ns s).animationState = ns
      ∧ (setAnimationState ns s).cameraCalls = s.cameraCalls)
    ∧ (s.animationState = AnimState.IDLE → s.onExplosionSet = false →
        triggerExplosion cfg evt s = Except.error JsError.typeError)
    ∧ (s.animationState = AnimState.EXPLODING → cfg.reassembleOnClick = true →
        s.onReturnSet = false →
        triggerExplosion cfg evt s = Except.error JsError.typeError) := by
  refine ⟨⟨rfl, by simp [setAnimationState, hcam]⟩, ?_, ?_⟩
  · intro hI hE
    rcases hrt : s.returnTimer with _ | d <;>
      simp [triggerExplosion, hg, hI, hrt, clearReturnTimer, setAnimationState,
            callOnExplosion, hE, Except.map]
  · intro hX hre hRs
    rcases hrt : s.returnTimer with _ | d <;>
      simp [triggerExplosion, hg, hX, hre, hrt, clearReturnTimer,
            callOnReturn, hRs, Except.map]

/-- Witness for C1: a tick in RETURNING with empty collections, where the
step hypothesis is discharged by computation. -/
theorem C1_witness :
    ((animateTick cfgW envW 0 sysRet).animationState = AnimState.IDLE →
        sysRet.animationState = AnimState.IDLE ∨
          (sysRet.animationState = AnimState.RETURNING ∧ ∃ u, SysEvent.tick (0 : ℚ) = SysEvent.tick u ∧
            ((integrateFrom cfgW envW AnimState.RETURNING u 0 sysRet.particles
              ++ integrateFrom cfgW envW AnimState.RETURNING u 0 sysRet.testParticles).all convergedB)
              = true))
    ∧ (SysEvent.tick (0 : ℚ) = SysEvent.tick 0 → sysRet.animationState = AnimState.RETURNING →
        ((animateTick cfgW envW 0 sysRet).animationState = AnimState.IDLE ↔
          ((integrateFrom cfgW envW AnimState.RETURNING 0 0 sysRet.particles
            ++ integrateFrom cfgW envW AnimState.RETURNING 0 0 sysRet.testParticles).all convergedB)
            = true)) :=
  C1_idle_only_by_convergence cfgW envW sysRet (SysEvent.tick 0) 0
    (animateTick cfgW envW 0 sysRet) rfl

/-- Witness for C2: a trigger from the concrete IDLE state with all callbacks
wired. -/
theorem C2_witness :
    evtW.inGuiRegion = false
    ∧ (sysW.animationState = AnimState.IDLE ∨ sysW.animationState = AnimState.RETURNING)
    ∧ sysW.onExplosionSet = true
    ∧ sysW.onReturnSet = true
    ∧ (∃ s', triggerExplosion cfgW evtW sysW = Except.ok s'
        ∧ s'.animationState = AnimState.EXPLODING
        ∧ s'.setStateTrace = sysW.setStateTrace ++ [AnimState.EXPLODING]
        ∧ s'.onExplosionCalls = sysW.onExplosionCalls + 1
        ∧ s'.onReturnCalls = sysW.onReturnCalls
        ∧ s'.returnTimer = some cfgW.holdDuration
        ∧ s'.clearTimeoutCalls = sysW.clearTimeoutCalls + (if sysW.returnTimer.isSome then 1 else 0)
        ∧ ∃ s'', fireReturnTimer s' = Except.ok s''
            ∧ s''.onReturnCalls = s'.onReturnCalls + 1
            ∧ s''.animationState = AnimState.RETURNING
            ∧ s''.setStateTrace = s'.setStateTrace ++ [AnimState.RETURNING]
            ∧ s''.returnTimer = none) :=
  ⟨rfl, Or.inl rfl, rfl, rfl,
   C2_trigger_explodes_and_schedules cfgW evtW sysW rfl (Or.inl rfl) rfl rfl⟩

/-- Witness for C3: a trigger from the concrete EXPLODING state with a
pending timer and reassembleOnClick enabled. -/
theorem C3_witness :
    evtW.inGuiRegion = false
    ∧ sysExp.animationState = AnimState.EXPLODING
    ∧ cfgW.reassembleOnClick = true
    ∧ sysExp.onReturnSet = true
    ∧ (∃ s', triggerExplosion cfgW evtW sysExp = Except.ok s'
        ∧ s'.animationState = AnimState.RETURNING
        ∧ s'.setStateTrace = sysExp.setStateTrace ++ [AnimState.RETURNING]
        ∧ s'.onReturnCalls = sysExp.onReturnCalls + 1
        ∧ s'.onExplosionCalls = sysExp.onExplosionCalls
        ∧ s'.returnTimer = none
        ∧ s'.clearTimeoutCalls = sysExp.clearTimeoutCalls + (if sysExp.returnTimer.isSome then 1 else 0)) :=
  ⟨rfl, rfl, rfl, rfl,
   C3_reassemble_returns_immediately cfgW evtW sysExp rfl rfl rfl rfl⟩

/-- Witness for C4: a trigger from the concrete EXPLODING state with
reassembleOnClick disabled. -/
theorem C4_witness :
    sysExp.animationState = AnimState.EXPLODING
    ∧ cfgWn.reassembleOnClick = false
    ∧ triggerExplosion cfgWn evtW sysExp = Except.ok sysExp :=
  ⟨rfl, rfl, C4_exploding_without_reassemble_noop cfgWn evtW sysExp rfl rfl⟩

/-- Witness for C6: the EXPLODING update at a concrete particle and mouse. -/
theorem C6_witness :
    envW.getMouseSet = true
    ∧ ((animateSingleParticle cfgW envW AnimState.EXPLODING pW 0 0).userData.individualParallaxShift.x
        = (if cfgW.explodedParallaxEnabled = true
           then pW.userData.individualParallaxShift.x
                + (envW.mouseX * cfgW.explodedParallaxStrength * pW.userData.baseParallaxSensitivity
                   - pW.userData.individualParallaxShift.x) * 0.08
           else pW.userData.individualParallaxShift.x * 0.95)
    ∧ (animateSingleParticle cfgW envW AnimState.EXPLODING pW 0 0).userData.individualParallaxShift.y
        = (if cfgW.explodedParallaxEnabled = true
           then pW.userData.individualParallaxShift.y
                + (envW.mouseY * cfgW.explodedParallaxStrength * pW.userData.baseParallaxSensitivity
                   - pW.userData.individualParallaxShift.y) * 0.08
           else pW.userData.individualParallaxShift.y * 0.95)
    ∧ (animateSingleParticle cfgW envW AnimState.EXPLODING pW 0 0).position.x
        = (pW.position.x
           + ((pW.userData.explosionTarget.x
               + (animateSingleParticle cfgW envW AnimState.EXPLODING pW 0 0).userData.individualParallaxShift.x)
              - pW.position.x) * cfgW.animationSpeed)
          + envW.sin ((0 : ℚ) * 0.001 + ((0 : ℕ) : ℚ)) * 0.01
    ∧ (animateSingleParticle cfgW envW AnimState.EXPLODING pW 0 0).position.y
        = (pW.position.y
           + ((pW.userData.explosionTarget.y
               + (animateSingleParticle cfgW envW AnimState.EXPLODING pW 0 0).userData.individualParallaxShift.y)
              - pW.position.y) * cfgW.animationSpeed)
          + envW.sin ((0 : ℚ) * cfgW.idleFloatSpeed * 2 + ((0 : ℕ) : ℚ) * 0.1) * cfgW.idleFloatAmount
    ∧ (animateSingleParticle cfgW envW AnimState.EXPLODING pW 0 0).position.z
        = (pW.position.z
           + (pW.userData.explosionTarget.z - pW.position.z) * cfgW.animationSpeed)
          + envW.cos ((0 : ℚ) * 0.001 + ((0 : ℕ) : ℚ)) * 0.01) :=
  ⟨rfl, C6_exploding_parallax_and_lerp cfgW envW pW 0 0 rfl⟩

/-- Witness for C8's amended theorem: one well-formed record, then a
malformed one, then another well-formed one. -/
theorem C8_witness :
    pBad.userData = none
    ∧ animateListJS cfgW envW AnimState.IDLE 0 0 true [pGoodA, pBad, pGoodB] =
        ((animateListJS cfgW envW AnimState.IDLE 0 0 true [pGoodA]).1 ++ pBad :: [pGoodB],
         (animateListJS cfgW envW AnimState.IDLE 0 0 true [pGoodA]).2.1, true) :=
  ⟨rfl, C8_fault_aborts_rest cfgW envW AnimState.IDLE 0 [pGoodA] pBad [pGoodB] 0 true
      (by decide) rfl⟩

/-- Witness for C9's amended theorem at the concrete unconfigured state. -/
theorem C9_witness :
    ((setAnimationState AnimState.EXPLODING sysNoCb).animationState = AnimState.EXPLODING
      ∧ (setAnimationState AnimState.EXPLODING sysNoCb).cameraCalls = sysNoCb.cameraCalls)
    ∧ (sysNoCb.animationState = AnimState.IDLE → sysNoCb.onExplosionSet = false →
        triggerExplosion cfgW evtW sysNoCb = Except.error JsError.typeError)
    ∧ (sysNoCb.animationState = AnimState.EXPLODING → cfgW.reassembleOnClick = true →
        sysNoCb.onReturnSet = false →
        triggerExplosion cfgW evtW sysNoCb = Except.error JsError.typeError) :=
  C9_hooks_amended cfgW evtW sysNoCb AnimState.EXPLODING rfl rfl

/-- Witness for C10: the concrete RETURNING state with empty collections. -/
theorem C10_witness :
    sysRet.animationState = AnimState.RETURNING
    ∧ sysRet.particles = [] ∧ sysRet.testParticles = []
    ∧ ((animateTick cfgW envW 0 sysRet).animationState = AnimState.IDLE
       ∧ (animateTick cfgW envW 0 sysRet).particles = []
       ∧ (animateTick cfgW envW 0 sysRet).testParticles = []) :=
  ⟨rfl, rfl, rfl, C10_empty_collections_tick_idle cfgW envW sysRet 0 rfl rfl rfl⟩

end XmasTree
